import Mathlib

/-!
Shallow embedding of the free5gc UDR SBI server (internal/sbi/server.go).

The Go file wires an HTTP(S) server for the data-repository service:
configuration, router construction with an authorization pre-handler,
server construction (NewServer), the asynchronous accept loop (Run),
scheme dispatch (serve / unsecureServe / secureServe) and bounded
shutdown (Shutdown / shutdownHttpServer).

Effectful Go operations (sockets, goroutines, the gin framework,
net/http) are represented by explicit data: a serve call produces a
ListenAction value instead of opening a socket, the Run goroutine is a
separate function from the synchronous part of Run, and the wait group
is an integer counter. Collaborator code living in other packages of
the repository (factory constants, util.NewRouterAuthorizationCheck,
AddService, the route list) is modelled from the spec where noted.
-/

/-- TLS material of the SBI configuration (factory.Sbi.Tls): certificate
and key file paths. -/
structure Tls where
  pem : String
  key : String
deriving Repr, DecidableEq

/-- The SBI part of the UDR configuration (factory.Sbi): scheme, binding
address, port and optional TLS paths. -/
structure SbiConfig where
  scheme : String
  bindingIPv4 : String
  port : Nat
  tls : Tls
deriving Repr, DecidableEq

/-- Modelled from the spec: factory.UdrDefaultCertPemPath, the
component-defined default certificate path used when the configured path
is empty (pkg/factory is not under src). The concrete value is the
deployment packaging's concern; only its identity matters here. -/
def UdrDefaultCertPemPath : String := "./cert/udr.pem"

/-- Modelled from the spec: factory.UdrDefaultPrivateKeyPath, the
component-defined default private-key path used when the configured path
is empty (pkg/factory is not under src). -/
def UdrDefaultPrivateKeyPath : String := "./cert/udr.key"

/-- Modelled from the spec: factory.UdrDrResUriPrefix, the capability
path of the data-repository route group (pkg/factory is not under src). -/
def UdrDrResUriPrefixPath : String := "/nudr-dr/v2"

/-- Modelled from the spec: models.ServiceName_NUDR_DR, the declared
service name passed to the authorization check. -/
def ServiceName_NUDR_DR : String := "nudr-dr"

/-- A Go error value as seen by the Run goroutine: either the sentinel
http.ErrServerClosed, or any other error carrying a message. -/
inductive GoError where
  | errServerClosed
  | errMsg (msg : String)
deriving Repr, DecidableEq

/-- The message of a Go error, as formatted into log output. -/
def goErrorString : GoError → String
  | .errServerClosed => "http: Server closed"
  | .errMsg m => m

/-- The per-request authorization decision produced by the authorization
gate for the current security context. -/
inductive Decision where
  | allow
  | deny
deriving Repr, DecidableEq

/-- A pre-handler (gin middleware) installed on a route group. The only
pre-handler this layer installs is the authorization check closure of
newRouter, which invokes util.NewRouterAuthorizationCheck(name).Check. -/
inductive PreHandler where
  | authCheck (serviceName : String)
deriving Repr, DecidableEq

/-- Modelled from the spec: util.NewRouterAuthorizationCheck(name).Check
(internal/util is not under src). On a deny decision it aborts the gin
context with an unauthorized status (401) so the handler chain stops; on
allow it passes (returns no abort status). -/
def runPreHandler : PreHandler → Decision → Option Nat
  | .authCheck _, .deny => some 401
  | .authCheck _, .allow => none

/-- A (method, path) route entry supplied by the processor collaborator
via getDataRepositoryRoutes (routes.go is not under src; the entries
are abstract here). -/
structure Route where
  method : String
  pattern : String
deriving Repr, DecidableEq

/-- A route as registered on the gin engine: gin captures the group's
middleware chain at registration time, so each registered route stores
the pre-handler chain that will run before its domain handler. -/
structure RegisteredRoute where
  method : String
  pattern : String
  preChain : List PreHandler
deriving Repr, DecidableEq

/-- The gin engine restricted to what newRouter builds: one route group
with its capability path, its middleware list, and the routes registered
on it. -/
structure GinRouter where
  groupBasePath : String
  groupPreHandlers : List PreHandler
  registered : List RegisteredRoute
deriving Repr, DecidableEq

/-- gin group.Use: appends a middleware to the group's chain. Routes
registered before this call are unaffected (their captured chain does
not change); routes registered after it will include it. -/
def ginUse (g : GinRouter) (p : PreHandler) : GinRouter :=
  { g with groupPreHandlers := g.groupPreHandlers ++ [p] }

/-- gin group.Handle: registers one route on the group, capturing the
group's current middleware chain in front of the domain handler. -/
def ginHandle (g : GinRouter) (r : Route) : GinRouter :=
  { g with registered := g.registered ++
      [{ method := r.method, pattern := r.pattern, preChain := g.groupPreHandlers }] }

/-- Modelled from the spec: AddService (internal/sbi, not under src)
registers the full set of (method, path, handler) entries onto the
group, in order. -/
def AddService (g : GinRouter) : List Route → GinRouter
  | [] => g
  | r :: rs => AddService (ginHandle g r) rs

/-- newRouter from server.go: creates the gin engine, opens the
data-repository group under the capability path, installs the
authorization check closure as the group's first pre-handler via Use,
and only then registers the data-repository routes via AddService. -/
def newRouter (dataRepositoryRoutes : List Route) : GinRouter :=
  let router : GinRouter :=
    { groupBasePath := UdrDrResUriPrefixPath
      groupPreHandlers := []
      registered := [] }
  let dataRepositoryGroup := ginUse router (.authCheck ServiceName_NUDR_DR)
  AddService dataRepositoryGroup dataRepositoryRoutes

/-- Runs a pre-handler chain in order: the first pre-handler that aborts
determines the abort status; if none aborts, the chain passes. -/
def firstAbort : List PreHandler → Decision → Option Nat
  | [], _ => none
  | p :: ps, d =>
    match runPreHandler p d with
    | some st => some st
    | none => firstAbort ps d

/-- Outcome of dispatching one request to a registered route: whether
the domain handler ran, and the response status. -/
structure DispatchResult where
  handlerInvoked : Bool
  status : Nat
deriving Repr, DecidableEq

/-- gin dispatch for a request matched to a registered route, given the
authorization decision for the request's security context: the captured
pre-handler chain runs first, in order; an abort stops the chain and
returns the abort status without invoking the domain handler; otherwise
the domain handler runs (200 stands for its response). -/
def dispatchRoute (rr : RegisteredRoute) (d : Decision) : DispatchResult :=
  match firstAbort rr.preChain d with
  | some st => { handlerInvoked := false, status := st }
  | none => { handlerInvoked := true, status := 200 }

/-- The http.Server handle produced by httpwrapper.NewHttp2Server:
its bind address, the installed router, whether Shutdown has closed it,
and the time (in seconds) the environment would need to drain its
in-flight requests at shutdown (0 for a fresh handle; updated by the
environment as requests arrive, set back to 0 once closed). -/
structure HttpServer where
  addr : String
  handler : GinRouter
  closed : Bool
  draining : Nat
deriving Repr, DecidableEq

/-- Modelled from the spec: processor.NewProcessor's result, the
business-logic collaborator (internal/sbi/processor is not under src);
opaque to this layer. -/
inductive Processor where
  | mk
deriving Repr, DecidableEq

/-- The Server struct of server.go. The embedded Udr interface is
represented by the configuration it provides; the three pointer fields
are Options so that Go nil is representable. -/
structure Server where
  config : SbiConfig
  httpServer : Option HttpServer
  router : Option GinRouter
  processor : Option Processor
deriving Repr, DecidableEq

/-- bindRouter from server.go: computes the bind address from the SBI
configuration and asks httpwrapper.NewHttp2Server (external free5gc
util package) for a server handle. The wrapper's success or failure is
an environment input, passed as bindOutcome. -/
def bindRouter (cfg : SbiConfig) (router : GinRouter)
    (bindOutcome : Except String Unit) : Except String HttpServer :=
  let bindAddr := cfg.bindingIPv4 ++ ":" ++ toString cfg.port
  match bindOutcome with
  | .ok _ => .ok { addr := bindAddr, handler := router, closed := false, draining := 0 }
  | .error e => .error e

/-- Outcome of NewServer: either a constructed server, or a panic (the
Go constructor logs the bind error and panics); the panicked case
carries the logged message and the panic message. -/
inductive ConstructionResult where
  | ok (s : Server)
  | panicked (logged : String) (panicMsg : String)
deriving Repr, DecidableEq

/-- True iff construction returned a server (did not panic). -/
def ConstructionResult.succeeded : ConstructionResult → Bool
  | .ok _ => true
  | .panicked _ _ => false

/-- NewServer from server.go: builds the processor and the router, binds
the router, and returns the server; if bindRouter fails it logs
"bind Router Error" and panics "Server initialization failed", so a
server is only ever returned with all three fields set. (The source
assigns s.httpServer before the error check, but on error the panic
prevents any return.) The scheme is not inspected here. -/
def NewServer (cfg : SbiConfig) (dataRepositoryRoutes : List Route)
    (bindOutcome : Except String Unit) : ConstructionResult :=
  let pr := Processor.mk
  let router := newRouter dataRepositoryRoutes
  match bindRouter cfg router bindOutcome with
  | .ok server =>
      .ok { config := cfg
            httpServer := some server
            router := some router
            processor := some pr }
  | .error e =>
      .panicked ("bind Router Error: " ++ e) "Server initialization failed"

/-- The Processor accessor of server.go: returns s.processor, touching
nothing. -/
def Server.Processor (s : Server) : Option Processor :=
  s.processor

/-- What a serve call does instead of blocking on a socket: plain
ListenAndServe, or ListenAndServeTLS with the resolved certificate and
key file paths. -/
inductive ListenAction where
  | listenAndServe
  | listenAndServeTLS (certFile : String) (keyFile : String)
deriving Repr, DecidableEq

/-- unsecureServe from server.go: s.httpServer.ListenAndServe(). Returns
the listen action it initiates together with the (unchanged) server
state. -/
def unsecureServe (s : Server) : (Except GoError ListenAction) × Server :=
  (.ok .listenAndServe, s)

/-- secureServe from server.go: reads the TLS paths from the
configuration into locals, substituting the component defaults for empty
strings, and calls ListenAndServeTLS with the two locals. The
configuration itself is only read. -/
def secureServe (s : Server) : (Except GoError ListenAction) × Server :=
  let sbiConfig := s.config
  let pemPath := if sbiConfig.tls.pem = "" then UdrDefaultCertPemPath else sbiConfig.tls.pem
  let keyPath := if sbiConfig.tls.key = "" then UdrDefaultPrivateKeyPath else sbiConfig.tls.key
  (.ok (.listenAndServeTLS pemPath keyPath), s)

/-- serve from server.go: switches on the configured scheme; "http"
delegates to unsecureServe, "https" to secureServe, and any other scheme
returns the invalid-scheme error without initiating any listen action. -/
def serve (s : Server) : (Except GoError ListenAction) × Server :=
  if s.config.scheme = "http" then unsecureServe s
  else if s.config.scheme = "https" then secureServe s
  else (.error (.errMsg ("invalid SBI scheme: " ++ s.config.scheme)), s)

/-- The error a serve call eventually returns: if serve produced a
listen action, the transport environment's eventual error for that
action (a Go ListenAndServe call always returns a non-nil error);
otherwise serve's own error. -/
def serveOutcome (s : Server) (transport : ListenAction → GoError) : GoError :=
  match (serve s).1 with
  | .ok a => transport a
  | .error e => e

/-- The certificate file a secureServe call passes to
ListenAndServeTLS. -/
def secureCert (s : Server) : Option String :=
  match (secureServe s).1 with
  | .ok (.listenAndServeTLS c _) => some c
  | _ => none

/-- The key file a secureServe call passes to ListenAndServeTLS. -/
def secureKey (s : Server) : Option String :=
  match (secureServe s).1 with
  | .ok (.listenAndServeTLS _ k) => some k
  | _ => none

/-- A sync.WaitGroup reduced to its counter. -/
structure WaitGroup where
  counter : Int
deriving Repr, DecidableEq

/-- wg.Add. -/
def wgAdd (wg : WaitGroup) (n : Int) : WaitGroup :=
  { counter := wg.counter + n }

/-- wg.Done. -/
def wgDone (wg : WaitGroup) : WaitGroup :=
  wgAdd wg (-1)

/-- How the Run goroutine exits: quietly, or by panicking (logger
Panicf). -/
inductive TaskExit where
  | quiet
  | panicked (msg : String)
deriving Repr, DecidableEq

/-- The body of the goroutine launched by Run, after serve has returned
err: any error other than http.ErrServerClosed is escalated with
Panicf "HTTP server setup failed"; ErrServerClosed is not escalated and
the goroutine returns. -/
def runGoroutineBody (err : GoError) : TaskExit :=
  if err = .errServerClosed then .quiet
  else .panicked ("HTTP server setup failed: " ++ goErrorString err)

/-- What Run has done by the time it returns to its caller: the server
(untouched), the wait group after the synchronous wg.Add(1), and the
number of background tasks launched. Run itself never calls serve; the
launched task does, later. -/
structure RunReturn where
  server : Server
  wg : WaitGroup
  launched : Nat
deriving Repr, DecidableEq

/-- Run from server.go, synchronous part: logs, calls wg.Add(1), starts
the goroutine, and returns immediately. The serve call and the deferred
wg.Done belong to the launched task (runTask), not to Run. -/
def Run (s : Server) (wg : WaitGroup) : RunReturn :=
  { server := s, wg := wgAdd wg 1, launched := 1 }

/-- The goroutine launched by Run, run to completion: it calls serve
(and the transport, if a listen action was started), then the deferred
wg.Done fires exactly once at exit, whether the exit is quiet or a
panic unwind. -/
def runTask (s : Server) (transport : ListenAction → GoError)
    (wg : WaitGroup) : WaitGroup × TaskExit :=
  (wgDone wg, runGoroutineBody (serveOutcome s transport))

/-- The shutdown drain deadline of shutdownHttpServer, in seconds
(const shutdownTimeout = 2 * time.Second). -/
def shutdownTimeout : Nat := 2

/-- What one Shutdown call did: the resulting server, the message it
logged (none when nothing failed; never returned to the caller and never
a panic), and how long it blocked waiting for the drain, in seconds. -/
structure ShutdownRun where
  server : Server
  logged : Option String
  waited : Nat
deriving Repr, DecidableEq

/-- shutdownHttpServer from server.go: a nil handle is a no-op;
otherwise http.Server.Shutdown runs under a context with the fixed
2-second deadline: it stops accepting and waits for the drain, at most
shutdownTimeout seconds (net/http semantics for the external call). If
the drain needs longer than the deadline the returned deadline error is
logged — only logged — and the handle is closed regardless. -/
def shutdownHttpServer (s : Server) : ShutdownRun :=
  match s.httpServer with
  | none => { server := s, logged := none, waited := 0 }
  | some h =>
      { server := { s with httpServer := some { h with closed := true, draining := 0 } }
        logged :=
          if shutdownTimeout < h.draining then
            some "HTTP server shutdown failed: context deadline exceeded"
          else none
        waited := min h.draining shutdownTimeout }

/-- Shutdown from server.go: delegates to shutdownHttpServer and returns
nothing to the caller. -/
def Shutdown (s : Server) : ShutdownRun :=
  shutdownHttpServer s

/-- The field-presence invariant of a constructed server: router,
processor and httpServer are all non-nil. -/
def Server.invariant (s : Server) : Prop :=
  s.httpServer.isSome = true ∧ s.router.isSome = true ∧ s.processor.isSome = true

/-! Concrete inputs used by counterexamples and witnesses. -/

/-- A configuration with the unrecognized scheme "ftp". -/
def cfgFtp : SbiConfig :=
  { scheme := "ftp", bindingIPv4 := "127.0.0.4", port := 8000
    tls := { pem := "", key := "" } }

/-- A plain-HTTP configuration. -/
def cfgHttp : SbiConfig :=
  { scheme := "http", bindingIPv4 := "127.0.0.4", port := 8000
    tls := { pem := "", key := "" } }

/-- An HTTPS configuration with both TLS paths left empty. -/
def cfgHttpsEmpty : SbiConfig :=
  { scheme := "https", bindingIPv4 := "127.0.0.4", port := 8000
    tls := { pem := "", key := "" } }

/-- An HTTPS configuration with both TLS paths supplied. -/
def cfgHttpsSet : SbiConfig :=
  { scheme := "https", bindingIPv4 := "127.0.0.4", port := 8000
    tls := { pem := "/etc/udr/tls.pem", key := "/etc/udr/tls.key" } }

/-- A server whose configuration has the "ftp" scheme. -/
def srvFtp : Server :=
  { config := cfgFtp, httpServer := none, router := none, processor := none }

/-- A server with empty TLS paths configured. -/
def srvTlsEmpty : Server :=
  { config := cfgHttpsEmpty, httpServer := none, router := none, processor := none }

/-- A server with both TLS paths configured. -/
def srvTlsSet : Server :=
  { config := cfgHttpsSet, httpServer := none, router := none, processor := none }

/-- A server handle that would need 5 seconds to drain its in-flight
requests, exceeding the 2-second shutdown deadline. -/
def hBusy : HttpServer :=
  { addr := "127.0.0.4:8000", handler := newRouter [], closed := false, draining := 5 }

/-- A serving server holding the busy handle. -/
def srvBusy : Server :=
  { config := cfgHttp, httpServer := some hBusy
    router := some (newRouter []), processor := some Processor.mk }

/-- A server whose handle was never created (httpServer is nil). -/
def srvNil : Server :=
  { config := cfgHttp, httpServer := none, router := none, processor := none }

/-- The server NewServer builds from cfgHttp with no routes and a
successful bind. -/
def srvHttp : Server :=
  { config := cfgHttp
    httpServer := some { addr := cfgHttp.bindingIPv4 ++ ":" ++ toString cfgHttp.port
                         handler := newRouter [], closed := false, draining := 0 }
    router := some (newRouter [])
    processor := some Processor.mk }

/-- A zero wait group. -/
def wg0 : WaitGroup := { counter := 0 }

/-- One data-repository route, standing for an entry of
getDataRepositoryRoutes. -/
def drRoutes : List Route :=
  [{ method := "GET", pattern := "/subscription-data" }]

/-- The registered form of that route: it captured the group's
pre-handler chain, which is exactly the authorization check. -/
def drRegistered : RegisteredRoute :=
  { method := "GET", pattern := "/subscription-data"
    preChain := [PreHandler.authCheck ServiceName_NUDR_DR] }

/-! Claims. -/

/-- C1 counterexample: with the unrecognized scheme "ftp" and a
successful bind, NewServer returns a server rather than failing —
construction does not inspect the scheme, so it does not fail with a
configuration error there. -/
theorem newServer_invalid_scheme_constructs :
    (NewServer cfgFtp [] (.ok ())).succeeded = true := rfl

/-- C1 (amended): for every server whose configured scheme is neither
"http" nor "https", serve returns the invalid-scheme error and initiates
no listen action (no listening socket), and the Run goroutine escalates
that error as a panic, so the process never reaches a serving state with
an unrecognized scheme; the check happens in serve, not in NewServer. -/
theorem serve_invalid_scheme (s : Server) (transport : ListenAction → GoError)
    (h1 : s.config.scheme ≠ "http") (h2 : s.config.scheme ≠ "https") :
    (serve s).1 = .error (.errMsg ("invalid SBI scheme: " ++ s.config.scheme)) ∧
    runGoroutineBody (serveOutcome s transport) =
      .panicked ("HTTP server setup failed: " ++ ("invalid SBI scheme: " ++ s.config.scheme)) := by
  have hs : (serve s).1 = .error (.errMsg ("invalid SBI scheme: " ++ s.config.scheme)) := by
    simp [serve, h1, h2]
  refine ⟨hs, ?_⟩
  simp [serveOutcome, hs, runGoroutineBody, goErrorString]

/-- Witness for C1's amended theorem at the concrete "ftp" server. -/
theorem serve_invalid_scheme_witness :
    (serve srvFtp).1 = .error (.errMsg ("invalid SBI scheme: " ++ srvFtp.config.scheme)) ∧
    runGoroutineBody (serveOutcome srvFtp (fun _ => .errServerClosed)) =
      .panicked ("HTTP server setup failed: " ++ ("invalid SBI scheme: " ++ srvFtp.config.scheme)) :=
  serve_invalid_scheme srvFtp (fun _ => .errServerClosed) (by decide) (by decide)

/-- C2: secureServe resolves an empty configured certificate path to
UdrDefaultCertPemPath and an empty configured key path to
UdrDefaultPrivateKeyPath; a non-empty configured path is handed to
ListenAndServeTLS exactly as supplied, with no override. -/
theorem secureServe_path_resolution (s : Server) :
    (s.config.tls.pem = "" → secureCert s = some UdrDefaultCertPemPath) ∧
    (s.config.tls.pem ≠ "" → secureCert s = some s.config.tls.pem) ∧
    (s.config.tls.key = "" → secureKey s = some UdrDefaultPrivateKeyPath) ∧
    (s.config.tls.key ≠ "" → secureKey s = some s.config.tls.key) := by
  refine ⟨fun h => ?_, fun h => ?_, fun h => ?_, fun h => ?_⟩ <;>
    simp [secureCert, secureKey, secureServe, h]

/-- Witness for C2 at a server with empty TLS paths and one with both
paths supplied. -/
theorem secureServe_path_resolution_witness :
    secureCert srvTlsEmpty = some UdrDefaultCertPemPath ∧
    secureKey srvTlsEmpty = some UdrDefaultPrivateKeyPath ∧
    secureCert srvTlsSet = some srvTlsSet.config.tls.pem ∧
    secureKey srvTlsSet = some srvTlsSet.config.tls.key :=
  ⟨(secureServe_path_resolution srvTlsEmpty).1 rfl,
   (secureServe_path_resolution srvTlsEmpty).2.2.1 rfl,
   (secureServe_path_resolution srvTlsSet).2.1 (by decide),
   (secureServe_path_resolution srvTlsSet).2.2.2 (by decide)⟩

/-- C3: the goroutine launched by Run escalates every serve error other
than http.ErrServerClosed as a panic (Panicf), while the
graceful-shutdown closure ErrServerClosed is not escalated and the task
exits quietly. -/
theorem run_error_escalation (err : GoError) :
    (err ≠ .errServerClosed →
      runGoroutineBody err = .panicked ("HTTP server setup failed: " ++ goErrorString err)) ∧
    (err = .errServerClosed → runGoroutineBody err = .quiet) := by
  constructor
  · intro h
    simp [runGoroutineBody, h]
  · intro h
    simp [runGoroutineBody, h]

/-- Witness for C3 at a concrete accept-loop error and at the
ErrServerClosed sentinel. -/
theorem run_error_escalation_witness :
    runGoroutineBody (.errMsg "accept tcp: bad file descriptor") =
      .panicked ("HTTP server setup failed: " ++
        goErrorString (.errMsg "accept tcp: bad file descriptor")) ∧
    runGoroutineBody .errServerClosed = .quiet :=
  ⟨(run_error_escalation (.errMsg "accept tcp: bad file descriptor")).1 (by decide),
   (run_error_escalation .errServerClosed).2 rfl⟩

/-- C4: Shutdown drains under the fixed 2-second deadline: it blocks at
most shutdownTimeout = 2 seconds; the handle ends closed in every case;
when the drain needs longer than the deadline the deadline error is only
logged (ShutdownRun returns no error to the caller and has no panic
outcome), and when the drain fits the deadline nothing is logged. -/
theorem shutdown_bounded_deadline (s : Server) (h : HttpServer)
    (hs : s.httpServer = some h) :
    shutdownTimeout = 2 ∧
    (Shutdown s).waited ≤ shutdownTimeout ∧
    (Shutdown s).server.httpServer = some { h with closed := true, draining := 0 } ∧
    (shutdownTimeout < h.draining →
      (Shutdown s).logged = some "HTTP server shutdown failed: context deadline exceeded") ∧
    (h.draining ≤ shutdownTimeout → (Shutdown s).logged = none) := by
  refine ⟨rfl, ?_, ?_, fun hd => ?_, fun hd => ?_⟩
  · simp only [Shutdown, shutdownHttpServer, hs]
    exact min_le_right _ _
  · simp [Shutdown, shutdownHttpServer, hs]
  · simp [Shutdown, shutdownHttpServer, hs, hd]
  · simp [Shutdown, shutdownHttpServer, hs, Nat.not_lt.mpr hd]

/-- Witness for C4 at a server whose handle needs 5 seconds to drain:
the deadline is hit, the timeout is logged, the handle is closed. -/
theorem shutdown_bounded_deadline_witness :
    shutdownTimeout = 2 ∧
    (Shutdown srvBusy).waited ≤ shutdownTimeout ∧
    (Shutdown srvBusy).server.httpServer = some { hBusy with closed := true, draining := 0 } ∧
    (Shutdown srvBusy).logged = some "HTTP server shutdown failed: context deadline exceeded" := by
  have t := shutdown_bounded_deadline srvBusy hBusy rfl
  exact ⟨t.1, t.2.1, t.2.2.1, t.2.2.2.1 (by decide)⟩

/-- C5: Shutdown is idempotent and total: with a nil handle it is a
no-op (server unchanged, nothing logged, no wait); after a first
Shutdown every further Shutdown leaves the server unchanged, logs
nothing and waits no time, so any number of calls in sequence is safe —
and no call returns an error or panics (ShutdownRun has no such
component). -/
theorem shutdown_idempotent (s : Server) :
    (s.httpServer = none → Shutdown s = { server := s, logged := none, waited := 0 }) ∧
    (Shutdown (Shutdown s).server).server = (Shutdown s).server ∧
    (Shutdown (Shutdown s).server).logged = none ∧
    (Shutdown (Shutdown s).server).waited = 0 := by
  refine ⟨fun h => by simp [Shutdown, shutdownHttpServer, h], ?_, ?_, ?_⟩ <;>
    cases hs : s.httpServer <;>
      simp [Shutdown, shutdownHttpServer, hs, shutdownTimeout]

/-- Witness for C5 at the never-started server (nil handle) and at the
busy serving server. -/
theorem shutdown_idempotent_witness :
    Shutdown srvNil = { server := srvNil, logged := none, waited := 0 } ∧
    (Shutdown (Shutdown srvBusy).server).server = (Shutdown srvBusy).server ∧
    (Shutdown (Shutdown srvBusy).server).logged = none ∧
    (Shutdown (Shutdown srvBusy).server).waited = 0 :=
  ⟨(shutdown_idempotent srvNil).1 rfl,
   (shutdown_idempotent srvBusy).2.1,
   (shutdown_idempotent srvBusy).2.2.1,
   (shutdown_idempotent srvBusy).2.2.2⟩

/-- Helper for C6: a route found among AddService's registrations was
either already registered, or was registered by AddService itself and
then captured the group's pre-handler chain. -/
theorem addService_preChain (rs : List Route) (g : GinRouter) (rr : RegisteredRoute)
    (h : rr ∈ (AddService g rs).registered) :
    rr ∈ g.registered ∨ rr.preChain = g.groupPreHandlers := by
  induction rs generalizing g with
  | nil => exact .inl h
  | cons r rs ih =>
    rcases ih (ginHandle g r) h with hmem | hpre
    · simp only [ginHandle, List.mem_append, List.mem_singleton] at hmem
      rcases hmem with hmem | hmem
      · exact .inl hmem
      · right
        rw [hmem]
    · right
      simpa [ginHandle] using hpre

/-- C6: every route newRouter registers on the data-repository group
carries the NUDR_DR authorization check as its entire — hence first —
captured pre-handler chain, because the check was installed via Use
before any route was registered; so a request dispatched to any
registered route under a deny decision never invokes the domain handler
and gets the unauthorized (401) response. -/
theorem authorization_check_first (routes : List Route) (rr : RegisteredRoute)
    (h : rr ∈ (newRouter routes).registered) :
    rr.preChain = [PreHandler.authCheck ServiceName_NUDR_DR] ∧
    (dispatchRoute rr .deny).handlerInvoked = false ∧
    (dispatchRoute rr .deny).status = 401 := by
  have h2 : rr ∈ (AddService (ginUse
      { groupBasePath := UdrDrResUriPrefixPath, groupPreHandlers := [], registered := [] }
      (.authCheck ServiceName_NUDR_DR)) routes).registered := h
  have hpre : rr.preChain = [PreHandler.authCheck ServiceName_NUDR_DR] := by
    rcases addService_preChain routes _ rr h2 with hmem | hpre
    · simp [ginUse] at hmem
    · simpa [ginUse] using hpre
  refine ⟨hpre, ?_, ?_⟩ <;> simp [dispatchRoute, hpre, firstAbort, runPreHandler]

/-- Witness for C6 at a one-route registration under a deny decision. -/
theorem authorization_check_first_witness :
    drRegistered.preChain = [PreHandler.authCheck ServiceName_NUDR_DR] ∧
    (dispatchRoute drRegistered .deny).handlerInvoked = false ∧
    (dispatchRoute drRegistered .deny).status = 401 :=
  authorization_check_first drRoutes drRegistered (by decide)

/-- C7: when the bind fails, NewServer logs the bind error and panics
with "Server initialization failed": construction aborts and no server
value — in particular no partially-initialized one — is returned. -/
theorem newServer_bind_failure (cfg : SbiConfig) (routes : List Route) (e : String) :
    NewServer cfg routes (.error e) =
      .panicked ("bind Router Error: " ++ e) "Server initialization failed" := rfl

/-- C8: Run adds exactly one unit to the wait group synchronously,
launches exactly one background task, and returns with the server (and
everything else it can reach) untouched and without consulting the
transport — the serve call belongs to the launched task alone; the
task's deferred Done releases exactly the one registered unit at task
exit, restoring the caller's counter, whether the exit is quiet or a
panic. -/
theorem run_waitgroup_discipline (s : Server) (wg : WaitGroup)
    (transport : ListenAction → GoError) :
    (Run s wg).wg.counter = wg.counter + 1 ∧
    (Run s wg).launched = 1 ∧
    (Run s wg).server = s ∧
    (runTask s transport (Run s wg).wg).1.counter = wg.counter := by
  refine ⟨rfl, rfl, rfl, ?_⟩
  simp [Run, runTask, wgDone, wgAdd]

/-- C9: secureServe substitutes default TLS paths on local copies only:
the server state it returns — the stored configuration and its Tls
fields included — is exactly its input, and serve returns its server
state unchanged for every scheme. -/
theorem secureServe_frame (s : Server) :
    (secureServe s).2 = s ∧
    (secureServe s).2.config.tls.pem = s.config.tls.pem ∧
    (secureServe s).2.config.tls.key = s.config.tls.key ∧
    (serve s).2 = s := by
  refine ⟨rfl, rfl, rfl, ?_⟩
  simp only [serve]
  split
  · rfl
  · split <;> rfl

/-- C10: every server NewServer returns has a non-nil httpServer handle,
router and processor (on failure the constructor panics instead of
returning), and the invariant is preserved by the other operations:
Shutdown closes but never clears the handle and touches no other field,
Run returns the server untouched, and the Processor accessor only reads
the processor field. -/
theorem newServer_invariant (cfg : SbiConfig) (routes : List Route)
    (b : Except String Unit) (s : Server) (wg : WaitGroup)
    (hok : NewServer cfg routes b = .ok s) :
    s.invariant ∧
    (Shutdown s).server.invariant ∧
    (Run s wg).server = s ∧
    s.Processor = s.processor := by
  cases b with
  | error e =>
    have hfail : NewServer cfg routes (.error e) =
        .panicked ("bind Router Error: " ++ e) "Server initialization failed" := rfl
    rw [hfail] at hok
    exact absurd hok (by simp)
  | ok u =>
    have hs : NewServer cfg routes (.ok u) = .ok
        { config := cfg
          httpServer := some { addr := cfg.bindingIPv4 ++ ":" ++ toString cfg.port
                               handler := newRouter routes, closed := false, draining := 0 }
          router := some (newRouter routes)
          processor := some Processor.mk } := rfl
    rw [hs] at hok
    injection hok with hok
    subst hok
    refine ⟨⟨rfl, rfl, rfl⟩, ?_, rfl, rfl⟩
    simp [Shutdown, shutdownHttpServer, Server.invariant]

/-- Witness for C10 at the concrete http configuration with a
successful bind. -/
theorem newServer_invariant_witness :
    srvHttp.invariant ∧
    (Shutdown srvHttp).server.invariant ∧
    (Run srvHttp wg0).server = srvHttp ∧
    srvHttp.Processor = srvHttp.processor :=
  newServer_invariant cfgHttp [] (.ok ()) srvHttp wg0 rfl
